import Mathlib

/-!
Shallow embedding of the joist runtime shell (the `Sim` class, its resize /
step / screen-switch / popup machinery) together with the pure helper
`getDT`.  Numbers are modelled as rationals; the observable side effects of
one operation (emitter notifications, layout calls, property writes) are
recorded as an explicit event trace so that ordering claims can be stated.
Assertion guards (`assert && assert( ... )`) are modelled as `Except.error`
raised only when assertions are enabled in the configuration, matching the
stripped behaviour of production builds when the flag is off.
-/

namespace Joist

/-- A two-dimensional size, mirroring dot's `Dimension2`. -/
structure Dimension2 where
  width : ℚ
  height : ℚ
deriving DecidableEq, Repr

/-- An axis-aligned rectangle, mirroring dot's `Bounds2` (minX, minY, maxX, maxY). -/
structure Bounds2 where
  minX : ℚ
  minY : ℚ
  maxX : ℚ
  maxY : ℚ
deriving DecidableEq, Repr

/-- `Bounds2.width = maxX - minX`. -/
def Bounds2.width (b : Bounds2) : ℚ := b.maxX - b.minX

/-- `Bounds2.height = maxY - minY`. -/
def Bounds2.height (b : Bounds2) : ℚ := b.maxY - b.minY

/-- `HomeScreenView.LAYOUT_BOUNDS = new Bounds2( 0, 0, 768, 504 )`, the fixed
reference layout size used by `Sim.resizeAction` to compute the uniform scale. -/
def HomeScreenView.LAYOUT_BOUNDS : Bounds2 := ⟨0, 0, 768, 504⟩

/-- One screen as seen by the `Sim` shell: its identity, which optional step
callbacks its model/view implement, its `maxDT` cap (JS-falsy `0` meaning no
cap, matching the `if ( screen.maxDT )` truthiness test), its
`activeProperty` value and its view's `visible` flag. -/
structure Screen where
  id : ℕ
  hasModelStep : Bool
  hasViewStep : Bool
  maxDT : ℚ
  active : Bool
  viewVisible : Bool
deriving DecidableEq, Repr

/-- Fallback screen for out-of-range lookups (never hit on the JS side, where
`screenProperty.value` is always a member of `screens`). -/
def defaultScreen : Screen := ⟨0, false, false, 0, false, false⟩

/-- A popup node passed to `showPopup` / `hidePopup`: identity plus whether it
implements `hide()` and `layout()`. -/
structure Popup where
  id : ℕ
  hasHide : Bool
  hasLayout : Bool
deriving DecidableEq, Repr

/-- Environment and query-parameter configuration fixed for a run of the sim.
`navigationBarFixedHeight` stands for `NavigationBar.NAVIGATION_BAR_SIZE.height`:
NavigationBar's source is not part of this repository snapshot, so the constant
is Modelled from the spec, which calls it `fixedBarHeight` (navigation-bar
height = scale × fixedBarHeight).  `toolbarDisplayedWidth` stands for
`toolbar.getDisplayedWidth()` (Toolbar is likewise outside the snapshot);
the spec describes it as the persistent side toolbar's current width. -/
structure SimConfig where
  assertEnabled : Bool
  speed : ℚ
  playbackModeEnabled : Bool
  supportsPanAndZoom : Bool
  hasTween : Bool
  hasVibrationManager : Bool
  memoryLimit : Bool
  phetioEnabled : Bool
  phetioReadyForDisplay : Bool
  isSettingPhetioState : Bool
  hasToolbar : Bool
  toolbarDisplayedWidth : ℚ
  windowWidth : ℚ
  windowHeight : ℚ
  navigationBarFixedHeight : ℚ
deriving DecidableEq, Repr

/-- The mutable state of the `Sim` shell that the verified operations touch.
`navigationBarHeight` is the navigation bar node's height: NavigationBar's
source is not in this snapshot, so its `layout( scale, width, navBarHeight )`
is Modelled from the spec as setting the bar's height to the `navBarHeight`
argument (spec: navigation-bar height = scale × fixedBarHeight).
`topLayerChildren` holds the popups added to `topLayer` (the barrier rectangle
is modelled separately through `barrierRectangleVisible`). -/
structure SimState where
  dimension : Dimension2
  scale : ℚ
  bounds : Option Bounds2
  screenBounds : Option Bounds2
  navigationBarHeight : ℚ
  navigationBarY : ℚ
  frameCounter : ℕ
  elapsedTime : ℚ
  resizePending : Bool
  lastStepTime : ℚ
  lastAnimationFrameTime : ℚ
  active : Bool
  destroyed : Bool
  screens : List Screen
  currentScreenIndex : ℕ
  modalNodeStack : List Popup
  topLayerChildren : List Popup
deriving DecidableEq, Repr

/-- `this.screenProperty.value`. -/
def currentScreen (s : SimState) : Screen := s.screens.getD s.currentScreenIndex defaultScreen

/-- An observable side effect of one `Sim` operation, in the order the
source performs them. -/
inductive SimEvent where
  | frameStarted : SimEvent
  | frameEnded : SimEvent
  | setDimension (width height : ℚ) : SimEvent
  | navigationBarLayout (scale width navBarHeight : ℚ) : SimEvent
  | displaySetSize (width height : ℚ) : SimEvent
  | toolbarLayout (scale screenHeight : ℚ) : SimEvent
  | screenViewLayout (screenId : ℕ) (b : Bounds2) : SimEvent
  | topLayerChildLayout (popupId : ℕ) (b : Bounds2) : SimEvent
  | setScaleProperty (scale : ℚ) : SimEvent
  | setBoundsProperty (b : Bounds2) : SimEvent
  | setScreenBoundsProperty (b : Bounds2) : SimEvent
  | setTargetScale (scale : ℚ) : SimEvent
  | setTargetBounds (b : Bounds2) : SimEvent
  | setPanBounds (b : Bounds2) : SimEvent
  | stepTimerEmit (dt : ℚ) : SimEvent
  | modelStep (screenId : ℕ) (dt : ℚ) : SimEvent
  | tweenUpdate (elapsedTime : ℚ) : SimEvent
  | panZoomStep (dt : ℚ) : SimEvent
  | vibrationStep (dt : ℚ) : SimEvent
  | viewStep (screenId : ℕ) (dt : ℚ) : SimEvent
  | updateDisplay : SimEvent
  | memoryMeasure : SimEvent
  | fuzzInputEvents : SimEvent
  | animationFrameTimerEmit (dt : ℚ) : SimEvent
  | updateBackground : SimEvent
  | interruptScreenInput (screenId : ℕ) : SimEvent
  | setVisible (screenId : ℕ) (oldValue newValue : Bool) : SimEvent
  | setActive (screenId : ℕ) (oldValue newValue visibleAtThatMoment : Bool) : SimEvent
  | resetTransform : SimEvent
  | interruptRootInput : SimEvent
  | pushModal (popupId : ℕ) : SimEvent
  | removeModal (popupId : ℕ) : SimEvent
  | popupLayout (popupId : ℕ) (b : Option Bounds2) : SimEvent
  | addChild (popupId : ℕ) : SimEvent
  | removeChild (popupId : ℕ) : SimEvent
deriving DecidableEq, Repr

/-- `Sim.resizeAction`: asserts a nonzero area, records the new dimension in
`dimensionProperty`, early-returns on an exactly-zero width or height, and
otherwise computes the uniform scale, lays out the navigation bar, display,
toolbar, every screen and every layout-capable top-layer child, and finally
writes the scale/bounds/screen-bounds properties and the pan-zoom geometry. -/
def resizeAction (cfg : SimConfig) (s : SimState) (width height : ℚ) :
    Except String (SimState × List SimEvent) :=
  if cfg.assertEnabled = true ∧ ¬(0 < width ∧ 0 < height) then
    Except.error ("sim should have a nonzero area")
  else
    let s1 : SimState := { s with dimension := ⟨width, height⟩ }
    let ev1 : List SimEvent := [SimEvent.setDimension width height]
    if width = 0 ∨ height = 0 then
      Except.ok (s1, ev1)
    else
      let scale : ℚ := min (width / HomeScreenView.LAYOUT_BOUNDS.width)
                           (height / HomeScreenView.LAYOUT_BOUNDS.height)
      let navBarHeight : ℚ := scale * cfg.navigationBarFixedHeight
      let s2 : SimState := { s1 with navigationBarHeight := navBarHeight,
                                     navigationBarY := height - navBarHeight }
      let ev2 : List SimEvent := ev1 ++
        [SimEvent.navigationBarLayout scale width navBarHeight,
         SimEvent.displaySetSize width height]
      let screenHeight : ℚ := height - s2.navigationBarHeight
      let ev3 : List SimEvent := ev2 ++
        (if cfg.hasToolbar = true then [SimEvent.toolbarLayout scale screenHeight] else [])
      let screenMinX : ℚ := if cfg.hasToolbar = true then cfg.toolbarDisplayedWidth else 0
      let availableScreenBounds : Bounds2 := ⟨screenMinX, 0, width, screenHeight⟩
      let ev4 : List SimEvent := ev3 ++
        s2.screens.map (fun m => SimEvent.screenViewLayout m.id availableScreenBounds)
      let ev5 : List SimEvent := ev4 ++
        (s2.topLayerChildren.filter (fun c => c.hasLayout)).map
          (fun c => SimEvent.topLayerChildLayout c.id availableScreenBounds)
      let s3 : SimState := { s2 with scale := scale,
                                     bounds := some ⟨0, 0, width, height⟩,
                                     screenBounds := some availableScreenBounds }
      let ev6 : List SimEvent := ev5 ++
        [SimEvent.setScaleProperty scale,
         SimEvent.setBoundsProperty ⟨0, 0, width, height⟩,
         SimEvent.setScreenBoundsProperty availableScreenBounds,
         SimEvent.setTargetScale scale,
         SimEvent.setTargetBounds ⟨0, 0, width, height⟩,
         SimEvent.setPanBounds ⟨0, 0, width, height⟩]
      Except.ok (s3, ev6)

/-- `Sim.resize( width, height )` just executes the resize action. -/
def resize (cfg : SimConfig) (s : SimState) (width height : ℚ) :
    Except String (SimState × List SimEvent) :=
  resizeAction cfg s width height

/-- `Sim.resizeToWindow`: clears the pending-resize flag then resizes to the
window's current dimensions. -/
def resizeToWindow (cfg : SimConfig) (s : SimState) :
    Except String (SimState × List SimEvent) :=
  resizeAction cfg { s with resizePending := false } cfg.windowWidth cfg.windowHeight

/-- `Sim.stepSimulationAction`: emits frame-started, increments the frame
counter, scales `dt` by the global speed multiplier, applies a pending resize,
caps `dt` by the current screen's truthy `maxDT`, advances
`phet.joist.elapsedTime` by `dt * 1000`, emits the shared step timer, steps
the model when its callback exists and `dt` is nonzero (JS truthiness of
`dt`), updates tweens / pan-zoom / vibration, steps the view when its
callback exists, updates the display unless PhET-iO is not ready, measures
memory, and emits frame-ended. -/
def stepSimulationAction (cfg : SimConfig) (s : SimState) (dt0 : ℚ) :
    Except String (SimState × List SimEvent) :=
  let s1 : SimState := { s with frameCounter := s.frameCounter + 1 }
  let dt1 : ℚ := dt0 * cfg.speed
  let resized : Except String (SimState × List SimEvent) :=
    if s1.resizePending = true then resizeToWindow cfg s1 else Except.ok (s1, [])
  match resized with
  | Except.error e => Except.error e
  | Except.ok (s2, evR) =>
    let screen : Screen := currentScreen s2
    let dt : ℚ := if screen.maxDT ≠ 0 then min dt1 screen.maxDT else dt1
    let s3 : SimState := { s2 with elapsedTime := s2.elapsedTime + dt * 1000 }
    let ev : List SimEvent :=
      [SimEvent.frameStarted] ++ evR
        ++ [SimEvent.stepTimerEmit dt]
        ++ (if screen.hasModelStep = true ∧ dt ≠ 0 then [SimEvent.modelStep screen.id dt] else [])
        ++ (if cfg.hasTween = true then [SimEvent.tweenUpdate s3.elapsedTime] else [])
        ++ (if cfg.supportsPanAndZoom = true then [SimEvent.panZoomStep dt] else [])
        ++ (if cfg.hasVibrationManager = true then [SimEvent.vibrationStep dt] else [])
        ++ (if screen.hasViewStep = true then [SimEvent.viewStep screen.id dt] else [])
        ++ (if ¬(cfg.phetioEnabled = true ∧ cfg.phetioReadyForDisplay = false) then
              [SimEvent.updateDisplay] else [])
        ++ (if cfg.memoryLimit = true then [SimEvent.memoryMeasure] else [])
        ++ [SimEvent.frameEnded]
    Except.ok (s3, ev)

/-- `Sim.stepSimulation( dt )` just executes the step action. -/
def stepSimulation (cfg : SimConfig) (s : SimState) (dt : ℚ) :
    Except String (SimState × List SimEvent) :=
  stepSimulationAction cfg s dt

/-- Runs a sequence of `stepSimulation` calls, threading the state and
concatenating the event traces. -/
def runStepSequence (cfg : SimConfig) : SimState → List ℚ →
    Except String (SimState × List SimEvent)
  | s, [] => Except.ok (s, [])
  | s, dt :: rest =>
    match stepSimulation cfg s dt with
    | Except.error e => Except.error e
    | Except.ok (s1, ev1) =>
      match runStepSequence cfg s1 rest with
      | Except.error e => Except.error e
      | Except.ok (s2, ev2) => Except.ok (s2, ev1 ++ ev2)

/-- `getDT( lastTime, currentTime )`: 1/60 s on the first tick (`-1`
sentinel), otherwise the elapsed milliseconds divided by 1000. -/
def getDT (lastTime currentTime : ℚ) : ℚ :=
  if lastTime = -1 then 1 / 60 else (currentTime - lastTime) / 1000

/-- `Sim.stepOneFrame`: computes `dt` from the wall clock, records the tick
time, and steps the simulation only when `dt > 0`. -/
def stepOneFrame (cfg : SimConfig) (s : SimState) (currentTime : ℚ) :
    Except String (SimState × List SimEvent) :=
  let dt : ℚ := getDT s.lastStepTime currentTime
  let s1 : SimState := { s with lastStepTime := currentTime }
  if 0 < dt then stepSimulation cfg s1 dt else Except.ok (s1, [])

/-- Result of one pass of `Sim.runAnimationLoop`: whether the next animation
frame was requested, the new state, and the event trace. -/
structure AnimationLoopResult where
  schedulesNextFrame : Bool
  state : SimState
  events : List SimEvent
deriving DecidableEq, Repr

/-- `Sim.runAnimationLoop`: requests the next animation frame first (unless
destroyed), then, only for an active sim outside playback mode, fuzzes input
(after the first frame) and runs `stepOneFrame`; finally emits the
animation-frame timer and records its tick time. -/
def runAnimationLoop (cfg : SimConfig) (s : SimState) (currentTime : ℚ) :
    Except String AnimationLoopResult :=
  let schedulesNextFrame : Bool := !s.destroyed
  let stepped : Except String (SimState × List SimEvent) :=
    if s.active = true ∧ cfg.playbackModeEnabled = false then
      let evFuzz : List SimEvent :=
        if 0 < s.frameCounter then [SimEvent.fuzzInputEvents] else []
      match stepOneFrame cfg s currentTime with
      | Except.error e => Except.error e
      | Except.ok (s1, ev1) => Except.ok (s1, evFuzz ++ ev1)
    else Except.ok (s, [])
  match stepped with
  | Except.error e => Except.error e
  | Except.ok (s2, ev2) =>
    let dtAnimation : ℚ := getDT s2.lastAnimationFrameTime currentTime
    Except.ok ⟨schedulesNextFrame,
               { s2 with lastAnimationFrameTime := currentTime },
               ev2 ++ [SimEvent.animationFrameTimerEmit dtAnimation]⟩

/-- The window-resize listener installed by `Sim.finishInit`: outside playback
mode it records a pending resize; during playback it does nothing. -/
def resizeListener (cfg : SimConfig) (s : SimState) : SimState :=
  if cfg.playbackModeEnabled = false then { s with resizePending := true } else s

/-- Recognises the model-step callback event. -/
def isModelStepEvent : SimEvent → Bool
  | SimEvent.modelStep _ _ => true
  | _ => false

/-- Recognises the view-step callback event. -/
def isViewStepEvent : SimEvent → Bool
  | SimEvent.viewStep _ _ => true
  | _ => false

/-- Recognises a screen-layout or layout-aware-overlay-layout event. -/
def isLayoutEvent : SimEvent → Bool
  | SimEvent.screenViewLayout _ _ => true
  | SimEvent.topLayerChildLayout _ _ => true
  | _ => false

/-- Recognises a write to one of the viewport geometry properties
(`scaleProperty`, `boundsProperty`, `screenBoundsProperty`). -/
def isGeometryWriteEvent : SimEvent → Bool
  | SimEvent.setScaleProperty _ => true
  | SimEvent.setBoundsProperty _ => true
  | SimEvent.setScreenBoundsProperty _ => true
  | _ => false

/-- The per-screen body of the `screenProperty.link` installed by
`Sim.finishInit`: for the selected screen, `activeProperty.set( true )` is
performed first (recording the view's visibility at that moment) and the view
is then made visible; for every other screen the view is hidden first and
`activeProperty.set( false )` runs afterwards, while the view is invisible. -/
def switchScreenStep (newIndex k : ℕ) (scr : Screen) : Screen × List SimEvent :=
  if k = newIndex then
    ({ scr with active := true, viewVisible := true },
     [SimEvent.setActive scr.id scr.active true scr.viewVisible,
      SimEvent.setVisible scr.id scr.viewVisible true])
  else
    ({ scr with viewVisible := false, active := false },
     [SimEvent.setVisible scr.id scr.viewVisible false,
      SimEvent.setActive scr.id scr.active false false])

/-- Folds `switchScreenStep` over the screen list (`screens.forEach`),
starting at index `k`. -/
def switchScreensAux (newIndex : ℕ) : ℕ → List Screen → List Screen × List SimEvent
  | _, [] => ([], [])
  | k, scr :: rest =>
    let head := switchScreenStep newIndex k scr
    let tail := switchScreensAux newIndex (k + 1) rest
    (head.1 :: tail.1, head.2 ++ tail.2)

/-- Setting `Sim.screenProperty`: a write of the current value notifies no
listener (no-op); an actual change notifies, in registration order, the
background-update link, the input-interrupting `lazyLink` on the old screen's
view, and the `finishInit` link (per-screen visibility/activity updates,
another background update, and a pan-zoom transform reset unless PhET-iO
state is being set). -/
def setScreenProperty (cfg : SimConfig) (s : SimState) (newIndex : ℕ) :
    SimState × List SimEvent :=
  if newIndex = s.currentScreenIndex then (s, [])
  else
    let oldId : ℕ := (currentScreen s).id
    let switched := switchScreensAux newIndex 0 s.screens
    ({ s with currentScreenIndex := newIndex, screens := switched.1 },
     [SimEvent.updateBackground, SimEvent.interruptScreenInput oldId]
       ++ switched.2
       ++ [SimEvent.updateBackground]
       ++ (if cfg.isSettingPhetioState = false then [SimEvent.resetTransform] else []))

/-- `Sim.showPopup( popup, isModal )`: asserts the popup has `hide()` and is
not already a top-layer child; if modal, interrupts all input on the root
node and pushes the popup onto the modal stack; lays the popup out against
the current screen bounds when it supports layout; finally adds it to the
top layer. -/
def showPopup (cfg : SimConfig) (s : SimState) (popup : Popup) (isModal : Bool) :
    Except String (SimState × List SimEvent) :=
  if cfg.assertEnabled = true ∧ popup.hasHide = false then
    Except.error ("Missing popup.hide() for showPopup")
  else if cfg.assertEnabled = true ∧ popup ∈ s.topLayerChildren then
    Except.error ("popup already shown")
  else
    let modalPart : SimState × List SimEvent :=
      if isModal = true then
        ({ s with modalNodeStack := s.modalNodeStack ++ [popup] },
         [SimEvent.interruptRootInput, SimEvent.pushModal popup.id])
      else (s, [])
    let s1 := modalPart.1
    let ev1 := modalPart.2 ++
      (if popup.hasLayout = true then [SimEvent.popupLayout popup.id s1.screenBounds] else [])
    Except.ok ({ s1 with topLayerChildren := s1.topLayerChildren ++ [popup] },
               ev1 ++ [SimEvent.addChild popup.id])

/-- `Sim.hidePopup( popup, isModal )`: asserts the popup is on the modal
stack and is a top-layer child; if modal, removes it from the modal stack;
always removes it from the top layer. -/
def hidePopup (cfg : SimConfig) (s : SimState) (popup : Popup) (isModal : Bool) :
    Except String (SimState × List SimEvent) :=
  if cfg.assertEnabled = true ∧ ¬(popup ∈ s.modalNodeStack) then
    Except.error ("popup not on modal stack")
  else if cfg.assertEnabled = true ∧ ¬(popup ∈ s.topLayerChildren) then
    Except.error ("popup was not shown")
  else
    let modalPart : SimState × List SimEvent :=
      if isModal = true then
        ({ s with modalNodeStack := s.modalNodeStack.erase popup },
         [SimEvent.removeModal popup.id])
      else (s, [])
    let s1 := modalPart.1
    Except.ok ({ s1 with topLayerChildren := s1.topLayerChildren.erase popup },
               modalPart.2 ++ [SimEvent.removeChild popup.id])

/-- Modelled from the spec: `BarrierRectangle` (scenery-phet, outside this
repository snapshot) derives its visibility purely from the modal stack —
"the dimming barrier's visibility is a pure function of modal stack
non-empty". -/
def barrierRectangleVisible (s : SimState) : Bool := !s.modalNodeStack.isEmpty

/-- The scale computed by `Sim.resizeAction` for a valid resize:
`Math.min( width / HomeScreenView.LAYOUT_BOUNDS.width, height / HomeScreenView.LAYOUT_BOUNDS.height )`. -/
def resizeScale (width height : ℚ) : ℚ :=
  min (width / HomeScreenView.LAYOUT_BOUNDS.width)
      (height / HomeScreenView.LAYOUT_BOUNDS.height)

/-- The `availableScreenBounds` computed by `Sim.resizeAction` for a valid
resize: min-x offset by the toolbar's displayed width when a toolbar exists,
full width, and the height remaining under the navigation bar. -/
def availableScreenBoundsOf (cfg : SimConfig) (width height : ℚ) : Bounds2 :=
  ⟨if cfg.hasToolbar = true then cfg.toolbarDisplayedWidth else 0, 0, width,
   height - resizeScale width height * cfg.navigationBarFixedHeight⟩

/-- A plain production configuration: assertions stripped, speed 1, no
playback, no optional subsystems, no toolbar, an 800×600 window, and a
40-unit navigation-bar reference height. -/
def cfgBase : SimConfig :=
  { assertEnabled := false
    speed := 1
    playbackModeEnabled := false
    supportsPanAndZoom := false
    hasTween := false
    hasVibrationManager := false
    memoryLimit := false
    phetioEnabled := false
    phetioReadyForDisplay := true
    isSettingPhetioState := false
    hasToolbar := false
    toolbarDisplayedWidth := 0
    windowWidth := 800
    windowHeight := 600
    navigationBarFixedHeight := 40 }

/-- `cfgBase` with playback mode enabled. -/
def cfgPlayback : SimConfig := { cfgBase with playbackModeEnabled := true }

/-- `cfgBase` with assertions enabled. -/
def cfgAssert : SimConfig := { cfgBase with assertEnabled := true }

/-- `cfgBase` with a toolbar whose displayed width is 120. -/
def cfgToolbar : SimConfig :=
  { cfgBase with hasToolbar := true, toolbarDisplayedWidth := 120 }

/-- `cfgBase` while PhET-iO is setting (bulk-restoring) simulation state. -/
def cfgSettingState : SimConfig := { cfgBase with isSettingPhetioState := true }

/-- A plain initial state: two screens whose models and views both implement
`step`, with no `maxDT` cap; screen 0 selected, active and visible. -/
def baseState : SimState :=
  { dimension := ⟨0, 0⟩
    scale := 1
    bounds := none
    screenBounds := none
    navigationBarHeight := 0
    navigationBarY := 0
    frameCounter := 0
    elapsedTime := 0
    resizePending := false
    lastStepTime := -1
    lastAnimationFrameTime := -1
    active := true
    destroyed := false
    screens := [⟨0, true, true, 0, true, true⟩, ⟨1, true, true, 0, false, false⟩]
    currentScreenIndex := 0
    modalNodeStack := []
    topLayerChildren := [] }

/-- `baseState` after a successful `resize( 800, 600 )`, giving it settled
prior viewport geometry. -/
def stateResized : SimState :=
  ((resizeAction cfgBase baseState 800 600).toOption.getD (baseState, [])).1

/-- `baseState` with a pending resize recorded. -/
def statePendingResize : SimState := { baseState with resizePending := true }

/-- `baseState` with a recorded previous tick at time 5 ms. -/
def stateLastStep5 : SimState := { baseState with lastStepTime := 5 }

/-- The result of the valid resize used to witness the geometry-write
ordering: `resizeAction cfgBase baseState 800 600`. -/
def resizeRunC6 : Except String (SimState × List SimEvent) :=
  resizeAction cfgBase baseState 800 600

/-- State component of `resizeRunC6`. -/
def stateC6 : SimState := (resizeRunC6.toOption.getD (baseState, [])).1

/-- Event-trace component of `resizeRunC6`. -/
def evC6 : List SimEvent := (resizeRunC6.toOption.getD (baseState, [])).2

/-- Three screens for the switch scenarios: a home screen (index 0) plus two
content screens; the content screen at index 1 is selected, active and
visible. -/
def stateThreeScreens : SimState :=
  { baseState with
      screens := [⟨0, false, false, 0, false, false⟩,
                  ⟨1, true, true, 0, true, true⟩,
                  ⟨2, true, true, 0, false, false⟩]
      currentScreenIndex := 1 }

/-- A modal popup without a layout routine. -/
def popupA : Popup := ⟨0, true, false⟩

/-- A modal popup with a layout routine. -/
def popupB : Popup := ⟨1, true, true⟩

/-- `stateResized` after `showPopup( popupA, true )`, used to exercise the
already-shown assertion. -/
def stateWithPopupA : SimState :=
  ((showPopup cfgAssert stateResized popupA true).toOption.getD (stateResized, [])).1

/-- The modal scenario `show( A, true )`, `show( B, true )`, `hide( B, true )`
run with assertions enabled from a state with settled geometry. -/
def modalScenario3 : Except String SimState :=
  (showPopup cfgAssert stateResized popupA true).bind (fun r1 =>
    (showPopup cfgAssert r1.1 popupB true).bind (fun r2 =>
      (hidePopup cfgAssert r2.1 popupB true).map (fun r3 => r3.1)))

/-- `modalScenario3` followed by `hide( A, true )`. -/
def modalScenario4 : Except String SimState :=
  modalScenario3.bind (fun s3 =>
    (hidePopup cfgAssert s3 popupA true).map (fun r => r.1))

end Joist

namespace Joist

/-- Claim C4 counterexample: the window-resize listener during playback leaves the state untouched:
with playback mode enabled and no resize pending, firing the listener does
not record the resize in the pending-resize flag, refuting the claim that
every host resize request is recorded while playback is enabled. -/
theorem playbackResizeRecordedCounterexample :
    ¬ ((resizeListener cfgPlayback baseState).resizePending = true) := by
  decide

/-- Claim C4 (amended): while playback mode is enabled, window-resize requests are
ignored entirely (the listener is a no-op); with playback disabled the
listener records the pending-resize flag, and a recorded pending resize is
applied — and the flag cleared — at the start of the next tick, immediately
after the frame-started notification. -/
theorem playbackResizeHandling (cfg : SimConfig) (s : SimState) (dt : ℚ) :
    (cfg.playbackModeEnabled = true → resizeListener cfg s = s) ∧
    (cfg.playbackModeEnabled = false →
      resizeListener cfg s = { s with resizePending := true }) ∧
    (cfg.assertEnabled = false → s.resizePending = true →
      (stepSimulation cfg s dt).toOption.map
          (fun r => (r.2.take 2, r.1.resizePending)) =
        some ([SimEvent.frameStarted,
               SimEvent.setDimension cfg.windowWidth cfg.windowHeight], false)) := by
  refine ⟨fun hp => ?_, fun hp => ?_, fun hassert hpend => ?_⟩
  · simp [resizeListener, hp]
  · simp [resizeListener, hp]
  · simp only [stepSimulation, stepSimulationAction, hpend, if_pos rfl, resizeToWindow,
      resizeAction, hassert]
    by_cases hz : cfg.windowWidth = 0 ∨ cfg.windowHeight = 0
    · simp [hz]
      exact ⟨_, _, rfl, rfl, rfl⟩
    · simp [hz]
      exact ⟨_, _, rfl, rfl, rfl⟩

theorem playbackResizeHandlingWitness :
    resizeListener cfgPlayback baseState = baseState ∧
    resizeListener cfgBase baseState = { baseState with resizePending := true } ∧
    (stepSimulation cfgBase statePendingResize 1).toOption.map
        (fun r => (r.2.take 2, r.1.resizePending)) =
      some ([SimEvent.frameStarted, SimEvent.setDimension 800 600], false) :=
  ⟨(playbackResizeHandling cfgPlayback baseState 1).1 rfl,
   (playbackResizeHandling cfgBase baseState 1).2.1 rfl,
   (playbackResizeHandling cfgBase statePendingResize 1).2.2 rfl rfl⟩

end Joist

namespace Joist

/-- Claim C2 counterexample: `resizeAction` updates the dimension property even for a zero width:
starting from settled geometry after `resize( 800, 600 )`, the call
`resize( 0, 600 )` changes the stored dimension from 800×600 to 0×600,
refuting the claim that all prior viewport geometry is left unchanged. -/
theorem resizeZeroCounterexample :
    ¬ ((resizeAction cfgBase stateResized 0 600).toOption.map
        (fun r => r.1.dimension) = some stateResized.dimension) := by
  decide

/-- Claim C2 (amended): a resize in which width or height is exactly zero raises no
error when assertions are stripped and performs no layout: the only effects
are the dimension-property write; scale, full bounds and content bounds keep
their prior values. -/
theorem resizeActionZeroDimension (cfg : SimConfig) (s : SimState)
    (width height : ℚ) (hassert : cfg.assertEnabled = false)
    (hzero : width = 0 ∨ height = 0) :
    resizeAction cfg s width height =
      Except.ok ({ s with dimension := ⟨width, height⟩ },
                 [SimEvent.setDimension width height]) := by
  unfold resizeAction
  rw [if_neg, if_pos hzero]
  simp [hassert]

theorem resizeActionZeroDimensionWitness :
    resizeAction cfgBase stateResized 0 600 =
      Except.ok ({ stateResized with dimension := ⟨0, 600⟩ },
                 [SimEvent.setDimension 0 600]) :=
  resizeActionZeroDimension cfgBase stateResized 0 600 rfl (Or.inl rfl)

/-- Claim C3: on every tick the elapsed time is `(now − lastTickTime) / 1000`
seconds, except the first tick (sentinel `-1`) where it is exactly 1/60; and
whenever the computed `dt` is not positive the tick performs no step at all
(`stepOneFrame` leaves the trace empty apart from recording the tick time)
while `runAnimationLoop` still requests the next animation frame. -/
theorem frameDtComputation (cfg : SimConfig) (s : SimState) (t : ℚ) :
    (s.lastStepTime = -1 → getDT s.lastStepTime t = 1 / 60) ∧
    (s.lastStepTime ≠ -1 → getDT s.lastStepTime t = (t - s.lastStepTime) / 1000) ∧
    (getDT s.lastStepTime t ≤ 0 → s.destroyed = false →
      stepOneFrame cfg s t = Except.ok ({ s with lastStepTime := t }, []) ∧
      (runAnimationLoop cfg s t).toOption.map
        AnimationLoopResult.schedulesNextFrame = some true) := by
  refine ⟨fun h => ?_, fun h => ?_, fun hle hdes => ?_⟩
  · simp [getDT, h]
  · simp [getDT, h]
  · have hstep : stepOneFrame cfg s t = Except.ok ({ s with lastStepTime := t }, []) := by
      simp [stepOneFrame, not_lt.mpr hle]
    refine ⟨hstep, ?_⟩
    by_cases hact : s.active = true ∧ cfg.playbackModeEnabled = false
    · simp [runAnimationLoop, hact, hstep, hdes]
      exact ⟨_, rfl, rfl⟩
    · simp [runAnimationLoop, hact, hdes]
      exact ⟨_, rfl, rfl⟩

theorem frameDtComputationWitness :
    stepOneFrame cfgBase stateLastStep5 5 =
        Except.ok ({ stateLastStep5 with lastStepTime := 5 }, []) ∧
      (runAnimationLoop cfgBase stateLastStep5 5).toOption.map
        AnimationLoopResult.schedulesNextFrame = some true :=
  (frameDtComputation cfgBase stateLastStep5 5).2.2
    (by norm_num [getDT, stateLastStep5, baseState]) rfl

end Joist

namespace Joist

/-- One `stepSimulation` call with no pending resize, unit speed multiplier
and no `maxDT` cap: the full resulting state and event trace. -/
theorem stepSimulation_noResize_eq (cfg : SimConfig) (s : SimState) (dt : ℚ)
    (hspeed : cfg.speed = 1) (hpend : s.resizePending = false)
    (hcap : (currentScreen s).maxDT = 0) :
    stepSimulation cfg s dt = Except.ok
      ({ s with frameCounter := s.frameCounter + 1,
                elapsedTime := s.elapsedTime + dt * 1000 },
       [SimEvent.frameStarted, SimEvent.stepTimerEmit dt]
         ++ (if (currentScreen s).hasModelStep = true ∧ dt ≠ 0 then
               [SimEvent.modelStep (currentScreen s).id dt] else [])
         ++ (if cfg.hasTween = true then
               [SimEvent.tweenUpdate (s.elapsedTime + dt * 1000)] else [])
         ++ (if cfg.supportsPanAndZoom = true then [SimEvent.panZoomStep dt] else [])
         ++ (if cfg.hasVibrationManager = true then [SimEvent.vibrationStep dt] else [])
         ++ (if (currentScreen s).hasViewStep = true then
               [SimEvent.viewStep (currentScreen s).id dt] else [])
         ++ (if ¬(cfg.phetioEnabled = true ∧ cfg.phetioReadyForDisplay = false) then
               [SimEvent.updateDisplay] else [])
         ++ (if cfg.memoryLimit = true then [SimEvent.memoryMeasure] else [])
         ++ [SimEvent.frameEnded]) := by
  have hscr :
      currentScreen { s with frameCounter := s.frameCounter + 1, resizePending := false } =
        currentScreen s :=
    rfl
  simp only [stepSimulation, stepSimulationAction, hpend, Bool.false_eq_true, if_false, hscr,
    hcap, hspeed, mul_one, ne_eq, not_true_eq_false, ite_false, List.append_assoc,
    List.cons_append, List.nil_append]

end Joist

namespace Joist

/-- Claim C1 (amended): over any sequence of `stepSimulation` calls (with
speed multiplier 1, no `maxDT` cap on the current screen and no pending
resize), the elapsed-time accumulator advances by 1000 × the sum of all the
`dt` values — negative and zero included —, the frame counter increments on
every call, the model-step callback fires exactly on the calls with
`dt ≠ 0`, and the view-step callback fires on every call. -/
theorem stepSequenceAccumulation (cfg : SimConfig) (dts : List ℚ) (s : SimState)
    (hspeed : cfg.speed = 1) (hpend : s.resizePending = false)
    (hcap : (currentScreen s).maxDT = 0) :
    (runStepSequence cfg s dts).toOption.map (fun r =>
        (r.1.elapsedTime, r.1.frameCounter,
         r.2.countP isModelStepEvent, r.2.countP isViewStepEvent)) =
      some (s.elapsedTime + 1000 * dts.sum, s.frameCounter + dts.length,
        (if (currentScreen s).hasModelStep = true then
          (dts.filter (fun d => decide (d ≠ 0))).length else 0),
        (if (currentScreen s).hasViewStep = true then dts.length else 0)) := by
  induction dts generalizing s with
  | nil =>
    have hbase : (runStepSequence cfg s []).toOption.map (fun r =>
        (r.1.elapsedTime, r.1.frameCounter,
         r.2.countP isModelStepEvent, r.2.countP isViewStepEvent)) =
        some (s.elapsedTime, s.frameCounter, 0, 0) := rfl
    rw [hbase]
    simp
  | cons dt rest ih =>
    have hstep := stepSimulation_noResize_eq cfg s dt hspeed hpend hcap
    have hcap1 : currentScreen { s with frameCounter := s.frameCounter + 1,
                                         elapsedTime := s.elapsedTime + dt * 1000 } =
        currentScreen s := rfl
    have ihs := ih { s with frameCounter := s.frameCounter + 1,
                            elapsedTime := s.elapsedTime + dt * 1000 } hpend
      (by rw [hcap1]; exact hcap)
    rw [hcap1] at ihs
    cases hrest : runStepSequence cfg { s with frameCounter := s.frameCounter + 1,
                                               elapsedTime := s.elapsedTime + dt * 1000 } rest with
    | error e =>
      rw [hrest] at ihs
      simp [Except.toOption] at ihs
    | ok r =>
      rw [hrest] at ihs
      simp only [Except.toOption, Option.map_some', Option.some.injEq, Prod.mk.injEq] at ihs
      obtain ⟨h1, h2, h3, h4⟩ := ihs
      show (runStepSequence cfg s (dt :: rest)).toOption.map _ = _
      simp only [runStepSequence, hstep, hrest, Except.toOption, Option.map_some',
        Option.some.injEq, Prod.mk.injEq]
      refine ⟨?_, ?_, ?_, ?_⟩
      · rw [h1, List.sum_cons]
        ring
      · rw [h2, List.length_cons]
        omega
      · rw [List.countP_append, h3]
        by_cases hm : (currentScreen s).hasModelStep = true <;> by_cases hdt : dt = 0 <;>
          simp [hm, hdt, List.countP_append, apply_ite (List.countP isModelStepEvent),
            List.countP_cons, List.countP_nil, isModelStepEvent, List.filter_cons] <;>
          omega
      · rw [List.countP_append, h4]
        by_cases hv : (currentScreen s).hasViewStep = true <;>
          simp [hv, List.countP_append, apply_ite (List.countP isViewStepEvent),
            List.countP_cons, List.countP_nil, isViewStepEvent] <;>
          omega

end Joist

namespace Joist

/-- Claim C1 counterexample: a single `stepSimulation( -1 )` call refutes the claim that the
elapsed-time accumulator advances only by the positive `dt` values (their sum
here is zero) and that model/view step callbacks fire only for positive
`dt`: the accumulator moves by −1000 ms and both callbacks fire. -/
theorem stepNegativeDtCounterexample :
    ¬ (∀ s' ev, (runStepSequence cfgBase baseState [(-1 : ℚ)]).toOption = some (s', ev) →
        s'.elapsedTime = baseState.elapsedTime ∧
        ev.countP isModelStepEvent = 0 ∧ ev.countP isViewStepEvent = 0) := by
  intro h
  have hcap : (currentScreen baseState).maxDT = 0 := rfl
  have hstep := stepSimulation_noResize_eq cfgBase baseState (-1) rfl rfl hcap
  have h1 := (h _ _ (by simp only [runStepSequence, hstep, Except.toOption]; rfl)).1
  have h2 : baseState.elapsedTime + -1 * 1000 = baseState.elapsedTime := h1
  have hbase : baseState.elapsedTime = 0 := rfl
  rw [hbase] at h2
  norm_num at h2

theorem stepSequenceAccumulationWitness :
    (runStepSequence cfgBase baseState [1, -2, 0, 3]).toOption.map (fun r =>
        (r.1.elapsedTime, r.1.frameCounter,
         r.2.countP isModelStepEvent, r.2.countP isViewStepEvent)) =
      some (baseState.elapsedTime + 1000 * ([1, -2, 0, 3] : List ℚ).sum,
        baseState.frameCounter + ([1, -2, 0, 3] : List ℚ).length,
        (if (currentScreen baseState).hasModelStep = true then
          (([1, -2, 0, 3] : List ℚ).filter (fun d => decide (d ≠ 0))).length else 0),
        (if (currentScreen baseState).hasViewStep = true then
          ([1, -2, 0, 3] : List ℚ).length else 0)) :=
  stepSequenceAccumulation cfgBase [1, -2, 0, 3] baseState rfl rfl rfl

end Joist

namespace Joist

/-- The full resulting state and event trace of a valid (positive-area)
`resizeAction`. -/
theorem resizeAction_pos_eq (cfg : SimConfig) (s : SimState) (width height : ℚ)
    (hw : 0 < width) (hh : 0 < height) :
    resizeAction cfg s width height = Except.ok
      ({ s with dimension := ⟨width, height⟩,
                navigationBarHeight := resizeScale width height * cfg.navigationBarFixedHeight,
                navigationBarY := height - resizeScale width height * cfg.navigationBarFixedHeight,
                scale := resizeScale width height,
                bounds := some ⟨0, 0, width, height⟩,
                screenBounds := some (availableScreenBoundsOf cfg width height) },
       [SimEvent.setDimension width height,
        SimEvent.navigationBarLayout (resizeScale width height) width
          (resizeScale width height * cfg.navigationBarFixedHeight),
        SimEvent.displaySetSize width height]
         ++ (if cfg.hasToolbar = true then
               [SimEvent.toolbarLayout (resizeScale width height)
                  (height - resizeScale width height * cfg.navigationBarFixedHeight)] else [])
         ++ s.screens.map (fun m =>
               SimEvent.screenViewLayout m.id (availableScreenBoundsOf cfg width height))
         ++ (s.topLayerChildren.filter (fun c => c.hasLayout)).map (fun c =>
               SimEvent.topLayerChildLayout c.id (availableScreenBoundsOf cfg width height))
         ++ [SimEvent.setScaleProperty (resizeScale width height),
             SimEvent.setBoundsProperty ⟨0, 0, width, height⟩,
             SimEvent.setScreenBoundsProperty (availableScreenBoundsOf cfg width height),
             SimEvent.setTargetScale (resizeScale width height),
             SimEvent.setTargetBounds ⟨0, 0, width, height⟩,
             SimEvent.setPanBounds ⟨0, 0, width, height⟩]) := by
  unfold resizeAction
  rw [if_neg, if_neg]
  · simp only [resizeScale, availableScreenBoundsOf, List.cons_append, List.nil_append,
      List.append_assoc]
  · rintro (h | h)
    · exact absurd h hw.ne'
    · exact absurd h hh.ne'
  · rintro ⟨-, h⟩
    exact h ⟨hw, hh⟩

end Joist

namespace Joist

/-- Claim C5: for a valid resize the single scale is
`min( width / referenceWidth, height / referenceHeight )`, the navigation-bar
height is `scale × fixedBarHeight`, the content bounds have height
`height − navBarHeight` and min-x offset by the toolbar's displayed width,
the navigation bar is laid out with that same scale, and every screen's
layout routine receives the same content bounds derived from it. -/
theorem resizeLayoutGeometry (cfg : SimConfig) (s : SimState) (width height : ℚ)
    (hw : 0 < width) (hh : 0 < height) :
    (resizeAction cfg s width height).toOption.map (fun r =>
        (r.1.scale, r.1.navigationBarHeight, r.1.screenBounds)) =
      some (resizeScale width height,
            resizeScale width height * cfg.navigationBarFixedHeight,
            some (availableScreenBoundsOf cfg width height)) ∧
    (availableScreenBoundsOf cfg width height).height =
      height - resizeScale width height * cfg.navigationBarFixedHeight ∧
    (availableScreenBoundsOf cfg width height).minX =
      (if cfg.hasToolbar = true then cfg.toolbarDisplayedWidth else 0) ∧
    (∀ r ∈ (resizeAction cfg s width height).toOption,
      SimEvent.navigationBarLayout (resizeScale width height) width
          (resizeScale width height * cfg.navigationBarFixedHeight) ∈ r.2 ∧
      ∀ m ∈ s.screens,
        SimEvent.screenViewLayout m.id (availableScreenBoundsOf cfg width height) ∈ r.2) := by
  rw [resizeAction_pos_eq cfg s width height hw hh]
  refine ⟨rfl, ?_, rfl, ?_⟩
  · simp [availableScreenBoundsOf, Bounds2.height]
  · intro r hr
    simp only [Except.toOption, Option.mem_def, Option.some.injEq] at hr
    subst hr
    constructor
    · simp
    · intro m hm
      simp only [List.mem_append, List.mem_map]
      exact Or.inl (Or.inl (Or.inr ⟨m, hm, rfl⟩))

theorem resizeLayoutGeometryWitness :
    (resizeAction cfgToolbar baseState 768 504).toOption.map (fun r =>
        (r.1.scale, r.1.navigationBarHeight, r.1.screenBounds)) =
      some (resizeScale 768 504,
            resizeScale 768 504 * cfgToolbar.navigationBarFixedHeight,
            some (availableScreenBoundsOf cfgToolbar 768 504)) :=
  (resizeLayoutGeometry cfgToolbar baseState 768 504 (by norm_num) (by norm_num)).1

end Joist

namespace Joist

/-- In `l₁ ++ l₂`, if `l₁` holds no `q`-event and `l₂` holds no `p`-event,
then every `p`-index precedes every `q`-index. -/
theorem append_index_order {α : Type} (l₁ l₂ : List α) (p q : α → Bool)
    (h₁ : ∀ a ∈ l₁, q a = false) (h₂ : ∀ a ∈ l₂, p a = false)
    (i j : ℕ) (hi : i < (l₁ ++ l₂).length) (hj : j < (l₁ ++ l₂).length)
    (hp : p ((l₁ ++ l₂).get ⟨i, hi⟩) = true) (hq : q ((l₁ ++ l₂).get ⟨j, hj⟩) = true) :
    i < j := by
  have hilt : i < l₁.length := by
    by_contra hge
    push_neg at hge
    have hisub : i - l₁.length < l₂.length := by
      rw [List.length_append] at hi
      omega
    have hmem : (l₁ ++ l₂).get ⟨i, hi⟩ ∈ l₂ := by
      rw [@List.get_append_right _ _ l₁ l₂ hge hi hisub]
      exact List.get_mem _ _ _
    rw [h₂ _ hmem] at hp
    exact Bool.false_ne_true hp
  have hjge : l₁.length ≤ j := by
    by_contra hlt
    push_neg at hlt
    have hmem : (l₁ ++ l₂).get ⟨j, hj⟩ ∈ l₁ := by
      rw [List.get_append_left l₁ l₂ hlt]
      exact List.get_mem _ _ _
    rw [h₁ _ hmem] at hq
    exact Bool.false_ne_true hq
  omega

end Joist

namespace Joist

/-- Claim C6: in a valid resize, the viewport geometry properties (scale, full
bounds, screen/content bounds) are written only after every screen's layout
and every layout-capable top-layer child's layout have run: any
geometry-write event in the trace has a strictly larger index than every
layout event. -/
theorem resizeGeometryWritesAfterLayout (cfg : SimConfig) (s : SimState)
    (width height : ℚ) (s' : SimState) (ev : List SimEvent)
    (hw : 0 < width) (hh : 0 < height)
    (hrun : resizeAction cfg s width height = Except.ok (s', ev))
    (i j : ℕ) (hi : i < ev.length) (hj : j < ev.length)
    (hlay : isLayoutEvent (ev.get ⟨i, hi⟩) = true)
    (hwrite : isGeometryWriteEvent (ev.get ⟨j, hj⟩) = true) :
    i < j := by
  rw [resizeAction_pos_eq cfg s width height hw hh] at hrun
  have hpair := Except.ok.inj hrun
  have hev : ev =
      ([SimEvent.setDimension width height,
        SimEvent.navigationBarLayout (resizeScale width height) width
          (resizeScale width height * cfg.navigationBarFixedHeight),
        SimEvent.displaySetSize width height]
         ++ (if cfg.hasToolbar = true then
               [SimEvent.toolbarLayout (resizeScale width height)
                  (height - resizeScale width height * cfg.navigationBarFixedHeight)] else [])
         ++ s.screens.map (fun m =>
               SimEvent.screenViewLayout m.id (availableScreenBoundsOf cfg width height))
         ++ (s.topLayerChildren.filter (fun c => c.hasLayout)).map (fun c =>
               SimEvent.topLayerChildLayout c.id (availableScreenBoundsOf cfg width height)))
        ++ [SimEvent.setScaleProperty (resizeScale width height),
            SimEvent.setBoundsProperty ⟨0, 0, width, height⟩,
            SimEvent.setScreenBoundsProperty (availableScreenBoundsOf cfg width height),
            SimEvent.setTargetScale (resizeScale width height),
            SimEvent.setTargetBounds ⟨0, 0, width, height⟩,
            SimEvent.setPanBounds ⟨0, 0, width, height⟩] := by
    rw [Prod.mk.injEq] at hpair
    rw [← hpair.2]
  subst hev
  refine append_index_order _ _ isLayoutEvent isGeometryWriteEvent ?_ ?_ i j hi hj hlay hwrite
  · intro a ha
    simp only [List.mem_append, List.mem_cons, List.not_mem_nil, or_false, List.mem_map] at ha
    rcases ha with (((rfl | rfl | rfl) | htb) | ⟨m, -, rfl⟩) | ⟨c, -, rfl⟩
    · rfl
    · rfl
    · rfl
    · by_cases hb : cfg.hasToolbar = true
      · rw [if_pos hb] at htb
        simp only [List.mem_cons, List.not_mem_nil, or_false] at htb
        subst htb
        rfl
      · rw [if_neg hb] at htb
        exact absurd htb (List.not_mem_nil a)
    · rfl
    · rfl
  · intro a ha
    simp only [List.mem_cons, List.not_mem_nil, or_false] at ha
    rcases ha with rfl | rfl | rfl | rfl | rfl | rfl <;> rfl

end Joist

namespace Joist

theorem resizeGeometryWritesAfterLayoutWitness :
    isLayoutEvent (evC6.get ⟨3, by decide⟩) = true ∧
    isGeometryWriteEvent (evC6.get ⟨5, by decide⟩) = true ∧ (3 : ℕ) < 5 :=
  ⟨by decide, by decide,
   resizeGeometryWritesAfterLayout cfgBase baseState 800 600 stateC6 evC6
     (by norm_num) (by norm_num) rfl 3 5 (by decide) (by decide) (by decide) (by decide)⟩

end Joist

namespace Joist

theorem switchScreensAux_length (newIndex : ℕ) (l : List Screen) :
    ∀ k, (switchScreensAux newIndex k l).1.length = l.length := by
  induction l with
  | nil => intro k; rfl
  | cons scr rest ih =>
    intro k
    simp only [switchScreensAux, List.length_cons, ih (k + 1)]

theorem switchScreensAux_getD (newIndex : ℕ) (l : List Screen) :
    ∀ k i, i < l.length →
      (switchScreensAux newIndex k l).1.getD i defaultScreen =
        (switchScreenStep newIndex (k + i) (l.getD i defaultScreen)).1 := by
  induction l with
  | nil => intro k i hi; simp at hi
  | cons scr rest ih =>
    intro k i hi
    cases i with
    | zero => simp [switchScreensAux]
    | succ i =>
      have hstep : k + 1 + i = k + (i + 1) := by omega
      simp only [switchScreensAux, List.getD_cons_succ]
      rw [ih (k + 1) i (by simpa using hi), hstep]

theorem switchScreensAux_target_mem (newIndex : ℕ) (l : List Screen) :
    ∀ k i, ∀ hi : i < l.length, k + i = newIndex →
      SimEvent.setVisible (l.get ⟨i, hi⟩).id (l.get ⟨i, hi⟩).viewVisible true ∈
        (switchScreensAux newIndex k l).2 := by
  induction l with
  | nil => intro k i hi _; simp at hi
  | cons scr rest ih =>
    intro k i hi hk
    cases i with
    | zero =>
      have hkeq : k = newIndex := by omega
      subst hkeq
      simp [switchScreensAux, switchScreenStep]
    | succ i =>
      simp only [switchScreensAux]
      apply List.mem_append_right
      exact ih (k + 1) i (by simpa using hi) (by omega)

theorem switchScreensAux_events_mem (newIndex : ℕ) (l : List Screen) :
    ∀ k e, e ∈ (switchScreensAux newIndex k l).2 →
      ∃ i, ∃ hi : i < l.length,
        e ∈ (switchScreenStep newIndex (k + i) (l.get ⟨i, hi⟩)).2 := by
  induction l with
  | nil => intro k e he; simp [switchScreensAux] at he
  | cons scr rest ih =>
    intro k e he
    simp only [switchScreensAux, List.mem_append] at he
    rcases he with he | he
    · exact ⟨0, by simp, by simpa using he⟩
    · obtain ⟨i, hi, hmem⟩ := ih (k + 1) e he
      have hstep : k + 1 + i = k + (i + 1) := by omega
      refine ⟨i + 1, by simpa using hi, ?_⟩
      rw [← hstep]
      simpa using hmem

end Joist

namespace Joist

/-- Claim C7 counterexample: while PhET-iO is setting (bulk-restoring) state,
an actual screen switch fires no pan-zoom transform reset, refuting the
unconditional "the pan/zoom camera transform is reset" on every change. -/
theorem screenSwitchResetCounterexample :
    (0 : ℕ) ≠ stateThreeScreens.currentScreenIndex ∧
    SimEvent.resetTransform ∉ (setScreenProperty cfgSettingState stateThreeScreens 0).2 := by
  decide

/-- Claim C7 (amended): an actual screen switch notifies, in order, the background update and
then the interrupt of the old screen's view input, so the interrupt (index 1)
precedes the event that makes the new screen visible (in the trace after
index 2); the pan-zoom transform is reset (outside PhET-iO state setting);
and an attempted switch to the currently selected screen notifies nothing
and interrupts nothing. -/
theorem screenSwitchInterruptBeforeVisible (cfg : SimConfig) (s : SimState) (newIndex : ℕ)
    (hne : newIndex ≠ s.currentScreenIndex) (hlt : newIndex < s.screens.length) :
    (setScreenProperty cfg s newIndex).2.take 2 =
      [SimEvent.updateBackground, SimEvent.interruptScreenInput (currentScreen s).id] ∧
    SimEvent.setVisible (s.screens.getD newIndex defaultScreen).id
        (s.screens.getD newIndex defaultScreen).viewVisible true ∈
      (setScreenProperty cfg s newIndex).2.drop 2 ∧
    (cfg.isSettingPhetioState = false →
      SimEvent.resetTransform ∈ (setScreenProperty cfg s newIndex).2) ∧
    setScreenProperty cfg s s.currentScreenIndex = (s, []) := by
  refine ⟨?_, ?_, ?_, ?_⟩
  · simp [setScreenProperty, hne]
  · simp only [setScreenProperty, if_neg hne, List.cons_append, List.drop_succ_cons,
      List.drop_zero]
    have hget : s.screens.getD newIndex defaultScreen = s.screens.get ⟨newIndex, hlt⟩ := by
      simp [List.getD_eq_getElem?_getD, List.getElem?_eq_getElem hlt]
    have hmem := switchScreensAux_target_mem newIndex s.screens 0 newIndex hlt (by omega)
    rw [hget]
    simpa using hmem
  · intro hps
    simp [setScreenProperty, hne, hps]
  · simp [setScreenProperty]

theorem screenSwitchInterruptBeforeVisibleWitness :
    (setScreenProperty cfgBase stateThreeScreens 0).2.take 2 =
      [SimEvent.updateBackground,
       SimEvent.interruptScreenInput (currentScreen stateThreeScreens).id] ∧
    SimEvent.setVisible (stateThreeScreens.screens.getD 0 defaultScreen).id
        (stateThreeScreens.screens.getD 0 defaultScreen).viewVisible true ∈
      (setScreenProperty cfgBase stateThreeScreens 0).2.drop 2 ∧
    SimEvent.resetTransform ∈ (setScreenProperty cfgBase stateThreeScreens 0).2 ∧
    setScreenProperty cfgBase stateThreeScreens stateThreeScreens.currentScreenIndex =
      (stateThreeScreens, []) := by
  have h := screenSwitchInterruptBeforeVisible cfgBase stateThreeScreens 0
    (by decide) (by decide)
  exact ⟨h.1, h.2.1, h.2.2.1 rfl, h.2.2.2⟩

end Joist

namespace Joist

/-- Claim C8: after an actual screen switch, exactly the selected screen is active
and exactly the selected screen's view is visible (selecting the home screen
therefore deactivates every content screen); and, assuming the pre-switch
invariant that exactly the selected screen was visible, every event that
changes a screen's active flag happens at a moment when that screen's view
is invisible. -/
theorem screenSwitchActivity (cfg : SimConfig) (s : SimState) (newIndex : ℕ)
    (hne : newIndex ≠ s.currentScreenIndex)
    (hvis : ∀ i, i < s.screens.length →
      ((s.screens.getD i defaultScreen).viewVisible = true ↔ i = s.currentScreenIndex)) :
    (∀ i, i < (setScreenProperty cfg s newIndex).1.screens.length →
      (((setScreenProperty cfg s newIndex).1.screens.getD i defaultScreen).active = true ↔
        i = newIndex)) ∧
    (∀ i, i < (setScreenProperty cfg s newIndex).1.screens.length →
      (((setScreenProperty cfg s newIndex).1.screens.getD i defaultScreen).viewVisible = true ↔
        i = newIndex)) ∧
    (∀ sid oldV newV vis,
      SimEvent.setActive sid oldV newV vis ∈ (setScreenProperty cfg s newIndex).2 →
        oldV ≠ newV → vis = false) := by
  have hlen : (setScreenProperty cfg s newIndex).1.screens.length = s.screens.length := by
    simp [setScreenProperty, if_neg hne, switchScreensAux_length]
  refine ⟨?_, ?_, ?_⟩
  · intro i hi
    rw [hlen] at hi
    have hgd : (setScreenProperty cfg s newIndex).1.screens.getD i defaultScreen =
        (switchScreenStep newIndex i (s.screens.getD i defaultScreen)).1 := by
      simp only [setScreenProperty, if_neg hne]
      have := switchScreensAux_getD newIndex s.screens 0 i hi
      simpa using this
    rw [hgd]
    by_cases hin : i = newIndex
    · simp [switchScreenStep, hin]
    · simp [switchScreenStep, hin]
  · intro i hi
    rw [hlen] at hi
    have hgd : (setScreenProperty cfg s newIndex).1.screens.getD i defaultScreen =
        (switchScreenStep newIndex i (s.screens.getD i defaultScreen)).1 := by
      simp only [setScreenProperty, if_neg hne]
      have := switchScreensAux_getD newIndex s.screens 0 i hi
      simpa using this
    rw [hgd]
    by_cases hin : i = newIndex
    · simp [switchScreenStep, hin]
    · simp [switchScreenStep, hin]
  · intro sid oldV newV vis hmem hchange
    simp only [setScreenProperty, if_neg hne, List.cons_append, List.mem_cons,
      List.mem_append] at hmem
    rcases hmem with h | h | h
    · exact absurd h (by simp)
    · exact absurd h (by simp)
    · rcases h with ((h | h) | h | h) | h
      · exact absurd h (List.not_mem_nil _)
      · obtain ⟨i, hi, hstep⟩ := switchScreensAux_events_mem newIndex s.screens 0 _ h
        simp only [Nat.zero_add] at hstep
        by_cases hin : i = newIndex
        · rw [switchScreenStep, if_pos hin] at hstep
          simp only [List.mem_cons, List.not_mem_nil, or_false] at hstep
          rcases hstep with heq | heq
          · injection heq with h1 h2 h3 h4
            have hgd : s.screens.getD i defaultScreen = s.screens.get ⟨i, hi⟩ := by
              simp [List.getD_eq_getElem?_getD, List.getElem?_eq_getElem hi]
            have hvf := hvis i hi
            rw [hgd] at hvf
            have hnv : ¬(s.screens.get ⟨i, hi⟩).viewVisible = true := fun hT =>
              hne (hin ▸ hvf.mp hT)
            rw [h4]
            exact Bool.eq_false_iff.mpr hnv
          · exact absurd heq (by simp)
        · rw [switchScreenStep, if_neg hin] at hstep
          simp only [List.mem_cons, List.not_mem_nil, or_false] at hstep
          rcases hstep with heq | heq
          · exact absurd heq (by simp)
          · simp only [SimEvent.setActive.injEq] at heq
            exact heq.2.2.2
      · exact absurd h (by simp)
      · exact absurd h (List.not_mem_nil _)
      · by_cases hps : cfg.isSettingPhetioState = false
        · rw [if_pos hps] at h
          simp only [List.mem_cons, List.not_mem_nil, or_false] at h
          exact absurd h (by simp)
        · rw [if_neg hps] at h
          exact absurd h (List.not_mem_nil _)

end Joist

namespace Joist

theorem screenSwitchActivityWitness :
    ((((setScreenProperty cfgBase stateThreeScreens 0).1.screens.getD 1
        defaultScreen).active = true) ↔ (1 : ℕ) = 0) ∧
    ((((setScreenProperty cfgBase stateThreeScreens 0).1.screens.getD 0
        defaultScreen).viewVisible = true) ↔ (0 : ℕ) = 0) := by
  have h := screenSwitchActivity cfgBase stateThreeScreens 0 (by decide) (by decide)
  exact ⟨h.1 1 (by decide), h.2.1 0 (by decide)⟩

end Joist

namespace Joist

/-- Claim C9: with assertions enabled, showing a popup that is already a top-layer
child fails the `popup already shown` assertion; otherwise a modal
`showPopup` interrupts the root node's input and pushes the popup onto the
modal stack, then lays the popup out against the current screen bounds when
it supports layout, then adds it to the top layer — in exactly that order. -/
theorem showPopupModalSpec (cfg : SimConfig) (s : SimState) (popup : Popup)
    (hhide : popup.hasHide = true) :
    (cfg.assertEnabled = true → popup ∈ s.topLayerChildren →
      showPopup cfg s popup true = Except.error ("popup already shown")) ∧
    (popup ∉ s.topLayerChildren →
      showPopup cfg s popup true = Except.ok
        ({ s with modalNodeStack := s.modalNodeStack ++ [popup],
                  topLayerChildren := s.topLayerChildren ++ [popup] },
         [SimEvent.interruptRootInput, SimEvent.pushModal popup.id]
           ++ (if popup.hasLayout = true then
                 [SimEvent.popupLayout popup.id s.screenBounds] else [])
           ++ [SimEvent.addChild popup.id])) := by
  constructor
  · intro hassert hmem
    simp [showPopup, hassert, hhide, hmem]
  · intro hnot
    simp [showPopup, hhide, hnot]

theorem showPopupModalSpecWitness :
    showPopup cfgAssert stateResized popupB true = Except.ok
      ({ stateResized with modalNodeStack := stateResized.modalNodeStack ++ [popupB],
                           topLayerChildren := stateResized.topLayerChildren ++ [popupB] },
       [SimEvent.interruptRootInput, SimEvent.pushModal popupB.id]
         ++ (if popupB.hasLayout = true then
               [SimEvent.popupLayout popupB.id stateResized.screenBounds] else [])
         ++ [SimEvent.addChild popupB.id]) ∧
    showPopup cfgAssert stateWithPopupA popupA true = Except.error ("popup already shown") :=
  ⟨(showPopupModalSpec cfgAssert stateResized popupB rfl).2 (by decide),
   (showPopupModalSpec cfgAssert stateWithPopupA popupA rfl).1 rfl (by decide)⟩

/-- Claim C10: the dimming barrier (modelled from the spec as a pure function of
the modal stack) is visible exactly when the modal stack is non-empty; and
in the scenario show(A, modal), show(B, modal), hide(B, modal) the stack
still holds A and the barrier stays visible, while the subsequent
hide(A, modal) empties the stack and hides the barrier. -/
theorem modalStackBarrier :
    (∀ s : SimState, barrierRectangleVisible s = true ↔ s.modalNodeStack ≠ []) ∧
    modalScenario3.toOption.map (fun s => (s.modalNodeStack, barrierRectangleVisible s)) =
      some ([popupA], true) ∧
    modalScenario4.toOption.map (fun s => (s.modalNodeStack, barrierRectangleVisible s)) =
      some ([], false) := by
  refine ⟨?_, by decide, by decide⟩
  intro s
  cases h : s.modalNodeStack with
  | nil => simp [barrierRectangleVisible, h]
  | cons a l => simp [barrierRectangleVisible, h]

end Joist
